import Mathlib

/-!
Verification of the machine-learning client dispatch logic of
`src/server/src/repositories/machine-learning.repository.ts`.

The TypeScript class `MachineLearningRepository` is embedded shallowly:

* network and file I/O are modelled by an explicit environment of pure
  functions (`DispatchEnv`); a fetch either fails at the transport level
  (`Except.error cause`) or yields an HTTP status / response;
* side effects (GET probes, POST dispatch, logger calls) are recorded in an
  explicit `Effect` trace returned alongside the result;
* thrown `Error`s become `Except.error` values of the inductive `MLError`,
  one constructor per throw site, each carrying the exact message string the
  source builds.

Type declarations that live in `src/interfaces/machine-learning.interface.ts`
(not part of the sources) are modelled from the spec where needed.
-/

set_option autoImplicit false

namespace MLRepo

/-- A single form-data field, as appended by `getFormData`: the serialized
config under `entries`, raw image bytes under `image`, or a plain string
under `text`. -/
inductive FormField where
  | entries (value : String)
  | image (bytes : List Nat)
  | text (value : String)
  deriving DecidableEq, Repr

/-- The multipart body built by `getFormData`: an ordered list of fields. -/
abbrev FormData := List FormField

/-- Modelled from the spec: `ModelPayload` (declared in the interface file,
which is not among the sources) is a union of an image-reference record and a
text record; at runtime the source only inspects the presence of the
`imagePath` / `text` keys, so we model a JS object with two optional keys. -/
structure ModelPayload where
  imagePath : Option String
  text : Option String
  deriving DecidableEq, Repr

/-- An HTTP response to the prediction POST: numeric status, status text and
the decoded JSON body (`res.json()`), generic in the body type `β`. -/
structure PostResponse (β : Type) where
  status : Nat
  statusText : String
  body : β
  deriving DecidableEq, Repr

/-- The observable side effects of one repository call, in order:
GET liveness probes, logger output, and the prediction POST (base address,
relative path, multipart body). -/
inductive Effect where
  | probe (path : String)
  | warn (msg : String)
  | debug (msg : String)
  | post (base : String) (path : String) (body : FormData)
  deriving DecidableEq, Repr

/-- The error taxonomy: one constructor per `throw new Error(...)` site in the
source, carrying the exact message string the source interpolates. -/
inductive MLError where
  | invalidInput (msg : String)
  | noAvailableServer (msg : String)
  | dispatchFailed (msg : String)
  | predictionRejected (msg : String)
  deriving DecidableEq, Repr

/-- The environment of external collaborators used by `predict`:
`JSON.stringify` on the request config, `readFile`, and `fetch` for GET
probes and the POST dispatch.  A fetch result `.error cause` is a
network-level (transport) failure; `.ok` is an HTTP response. -/
structure DispatchEnv (κ β : Type) where
  stringify : κ → String
  readFile : String → List Nat
  fetchGet : String → Except String Nat
  fetchPost : String → FormData → Except String (PostResponse β)

/-! ### Message strings, exactly as interpolated by the source
(`errorPrefix = 'Machine learning request'`). -/

/-- Message `` `${errorPrefix}: no machine learning server found.` ``. -/
def noServerMsg : String := "Machine learning request: no machine learning server found."

/-- Message `` `${errorPrefix} ping to "${path}" failed with ${error?.cause || error}` ``. -/
def pingFailMsg (path cause : String) : String :=
  "Machine learning request ping to \"" ++ path ++ "\" failed with " ++ cause

/-- Message `` `Response from ${path}` ``. -/
def respMsg (path : String) : String := "Response from " ++ path

/-- Message `` `${errorPrefix} to "${workingurl}" failed with ${error?.cause || error}` ``. -/
def dispatchFailMsg (workingurl cause : String) : String :=
  "Machine learning request to \"" ++ workingurl ++ "\" failed with " ++ cause

/-- Message `` `${errorPrefix} '${JSON.stringify(config)}' failed with status ${res.status}: ${res.statusText}` ``. -/
def rejectFailMsg (cfg : String) (status : Nat) (statusText : String) : String :=
  "Machine learning request '" ++ cfg ++ "' failed with status " ++ toString status
    ++ ": " ++ statusText

/-! ### Endpoint resolver (`find_working_server`) -/

/-- The ECMAScript white-space set used by `String.prototype.trim`:
TAB, LF, VT, FF, CR, SP, NBSP, OGHAM SPACE, the U+2000–U+200A range,
LS, PS, NNBSP, MMSP, IDEOGRAPHIC SPACE and ZWNBSP. -/
def jsWhitespace (c : Char) : Bool :=
  let n := c.toNat
  n = 0x9 || n = 0xA || n = 0xB || n = 0xC || n = 0xD || n = 0x20
    || n = 0xA0 || n = 0x1680 || (0x2000 ≤ n && n ≤ 0x200A)
    || n = 0x2028 || n = 0x2029 || n = 0x202F || n = 0x205F || n = 0x3000 || n = 0xFEFF

/-- JavaScript `item.trim()`: drop leading and trailing ECMAScript
white space. -/
def jsTrim (s : String) : String :=
  String.mk (((s.data.dropWhile jsWhitespace).reverse.dropWhile jsWhitespace).reverse)

/-- JavaScript `s.split(';')` over the character list: splits on every `';'`,
keeping empty segments; the result is never empty (`"".split(';') = [""]`). -/
def splitSemiAux : List Char → List Char → List String
  | [], acc => [String.mk acc.reverse]
  | c :: cs, acc =>
    if c = ';' then String.mk acc.reverse :: splitSemiAux cs []
    else splitSemiAux cs (c :: acc)

/-- Embedding of `url.split(';')`. -/
def splitSemi (s : String) : List String := splitSemiAux s.data []

/-- Embedding of `url.split(';').map((item) => item.trim())` — the candidate list. -/
def splitCandidates (url : String) : List String := (splitSemi url).map jsTrim

/-- The status the loop body of `find_working_server` sees for one candidate:
the HTTP status when the fetch succeeds, and the synthetic `0` from the
`catch` handler (`return { status: 0, text: 'nop' }`) when it fails. -/
def probeResult (g : String → Except String Nat) (path : String) : Nat :=
  match g path with
  | .error _ => 0
  | .ok s => s

/-- Embedding of the `for (const path of paths)` loop of `find_working_server`: probe each
candidate in order; a transport failure is caught, logged as a warning and
downgraded to status `0`; the first candidate with status `200` is returned
(with a debug log) and the scan stops.  Returns the effect trace and the
found address, if any. -/
def scanServers (g : String → Except String Nat) : List String → List Effect × Option String
  | [] => ([], none)
  | p :: rest =>
    let pr : Nat × List Effect :=
      match g p with
      | .error cause => (0, [Effect.probe p, Effect.warn (pingFailMsg p cause)])
      | .ok s => (s, [Effect.probe p])
    if pr.1 = 200 then
      (pr.2 ++ [Effect.debug (respMsg p)], some p)
    else
      let tail := scanServers g rest
      (pr.2 ++ tail.1, tail.2)

/-- Embedding of `find_working_server(url)`: split, trim, scan; if no candidate answered
with status `200`, throw the (fixed) no-server error. -/
def find_working_server (g : String → Except String Nat) (url : String) :
    List Effect × Except MLError String :=
  let scanned := scanServers g (splitCandidates url)
  match scanned.2 with
  | some p => (scanned.1, .ok p)
  | none => (scanned.1, .error (.noAvailableServer noServerMsg))

/-- The GET probes contained in an effect trace, in order. -/
def probesOf (evs : List Effect) : List String :=
  evs.filterMap fun e =>
    match e with
    | .probe p => some p
    | _ => none

/-- The POST dispatches contained in an effect trace, in order. -/
def postsOf (evs : List Effect) : List (String × String × FormData) :=
  evs.filterMap fun e =>
    match e with
    | .post b p fd => some (b, p, fd)
    | _ => none

/-! ### Prediction dispatcher (`getFormData`, `predict`) -/

/-- Embedding of `getFormData(payload, config)`: always append `entries` with the
serialized config; then `image` (the bytes read from `payload.imagePath`) if
the `imagePath` key is present, else `text` if the `text` key is present,
else `throw new Error('Invalid input')`. -/
def getFormData {κ β : Type} (env : DispatchEnv κ β) (payload : ModelPayload) (config : κ) :
    Except MLError FormData :=
  match payload.imagePath with
  | some p => .ok [FormField.entries (env.stringify config), FormField.image (env.readFile p)]
  | none =>
    match payload.text with
    | some t => .ok [FormField.entries (env.stringify config), FormField.text t]
    | none => .error (.invalidInput "Invalid input")

/-- Embedding of `predict<T>(url, payload, config)`: build the form data (may throw
`Invalid input` before any network activity), log a debug line, resolve a
working server, POST the form to `/predict` relative to it (a transport
failure throws the dispatch error naming the resolved address), and reject
any response status `>= 400`, otherwise return the decoded body.  Returns
the result together with the effect trace of the call. -/
def predict {κ β : Type} (env : DispatchEnv κ β) (url : String) (payload : ModelPayload)
    (config : κ) : Except MLError β × List Effect :=
  match getFormData env payload config with
  | .error e => (.error e, [])
  | .ok formData =>
    let pre := [Effect.debug ("Predicting with " ++ String.intercalate "," (splitSemi url))]
    let resolved := find_working_server env.fetchGet url
    match resolved.2 with
    | .error e => (.error e, pre ++ resolved.1)
    | .ok workingurl =>
      let evs := pre ++ resolved.1 ++ [Effect.post workingurl "/predict" formData]
      match env.fetchPost workingurl formData with
      | .error cause => (.error (.dispatchFailed (dispatchFailMsg workingurl cause)), evs)
      | .ok res =>
        if 400 ≤ res.status then
          (.error (.predictionRejected
            (rejectFailMsg (env.stringify config) res.status res.statusText)), evs)
        else
          (.ok res.body, evs)

/-! ### The three public operations

The request and response shapes live in the interface file, which is not
among the sources; they are modelled from the spec's table of
specializations, generic in the types this layer never inspects (face
records, embeddings, the minimum-score number). -/

/-- Modelled from the spec: the detection entry of a facial-recognition
request — `{ modelName, options: { minScore } }`, with the score type
`σ` abstract (a JS number this layer only stores). -/
structure DetectionEntry (σ : Type) where
  modelName : String
  minScore : σ
  deriving DecidableEq, Repr

/-- Modelled from the spec: the recognition entry — `{ modelName }`. -/
structure RecognitionEntry where
  modelName : String
  deriving DecidableEq, Repr

/-- Modelled from the spec: the facial-recognition task request built by
`detectFaces`. -/
structure FacialRecognitionRequest (σ : Type) where
  detection : DetectionEntry σ
  recognition : RecognitionEntry
  deriving DecidableEq, Repr

/-- Modelled from the spec: the search/visual task request built by
`encodeImage` — `{ search: { visual: { modelName } } }`. -/
structure SearchVisualRequest where
  modelName : String
  deriving DecidableEq, Repr

/-- Modelled from the spec: the search/textual task request built by
`encodeText` — `{ search: { textual: { modelName } } }`. -/
structure SearchTextualRequest where
  modelName : String
  deriving DecidableEq, Repr

/-- Modelled from the spec: `FacialRecognitionResponse` — image dimensions
plus the facial-recognition branch, a collection of face records of
abstract type `α`. -/
structure FacialRecognitionResponse (α : Type) where
  imageHeight : Nat
  imageWidth : Nat
  facial_recognition : List α
  deriving DecidableEq, Repr

/-- Modelled from the spec: `ClipVisualResponse` — the search branch, an
embedding of abstract type `γ`. -/
structure ClipVisualResponse (γ : Type) where
  search : γ
  deriving DecidableEq, Repr

/-- Modelled from the spec: `ClipTextualResponse` — the search branch, an
embedding of abstract type `γ`. -/
structure ClipTextualResponse (γ : Type) where
  search : γ
  deriving DecidableEq, Repr

/-- The projection `detectFaces` returns: `{ imageHeight, imageWidth,
faces: response[ModelTask.FACIAL_RECOGNITION] }`. -/
structure DetectFacesResult (α : Type) where
  imageHeight : Nat
  imageWidth : Nat
  faces : List α
  deriving DecidableEq, Repr

/-- Embedding of `detectFaces(url, imagePath, { modelName, minScore })`. -/
def detectFaces {σ α : Type} (env : DispatchEnv (FacialRecognitionRequest σ) (FacialRecognitionResponse α))
    (url imagePath : String) (modelName : String) (minScore : σ) :
    Except MLError (DetectFacesResult α) × List Effect :=
  let request : FacialRecognitionRequest σ := ⟨⟨modelName, minScore⟩, ⟨modelName⟩⟩
  let r := predict env url ⟨some imagePath, none⟩ request
  (r.1.map fun response =>
    ⟨response.imageHeight, response.imageWidth, response.facial_recognition⟩, r.2)

/-- Embedding of `encodeImage(url, imagePath, { modelName })`. -/
def encodeImage {γ : Type} (env : DispatchEnv SearchVisualRequest (ClipVisualResponse γ))
    (url imagePath : String) (modelName : String) : Except MLError γ × List Effect :=
  let request : SearchVisualRequest := ⟨modelName⟩
  let r := predict env url ⟨some imagePath, none⟩ request
  (r.1.map fun response => response.search, r.2)

/-- Embedding of `encodeText(url, text, { modelName })`. -/
def encodeText {γ : Type} (env : DispatchEnv SearchTextualRequest (ClipTextualResponse γ))
    (url text : String) (modelName : String) : Except MLError γ × List Effect :=
  let request : SearchTextualRequest := ⟨modelName⟩
  let r := predict env url ⟨none, some text⟩ request
  (r.1.map fun response => response.search, r.2)

/-! ### Substring occurrence (for "the error names/carries X" claims) -/

/-- Predicate `beginsWith hay needle`: `needle` is an initial run of `hay`. -/
def beginsWith : List Char → List Char → Bool
  | _, [] => true
  | [], _ :: _ => false
  | h :: hs, n :: ns => h == n && beginsWith hs ns

/-- Predicate `occursIn hay needle`: `needle` occurs contiguously somewhere in `hay`. -/
def occursIn : List Char → List Char → Bool
  | [], needle => beginsWith [] needle
  | h :: hs, needle => beginsWith (h :: hs) needle || occursIn hs needle

/-- Predicate `strOccurs hay needle`: `needle` is a substring of `hay`. -/
def strOccurs (hay needle : String) : Bool := occursIn hay.data needle.data

/-! ### Concrete test environments (used to instantiate the theorems) -/

/-- A probe environment where only `"b"` is live. -/
def wgOnlyB : String → Except String Nat := fun p => if p = "b" then .ok 200 else .ok 500

/-- A probe environment where every fetch fails at the transport level. -/
def wgFail : String → Except String Nat := fun _ => .error "connection refused"

/-- A fully successful dispatch environment over `Nat` config and body. -/
def envOk : DispatchEnv Nat Nat :=
  ⟨fun _ => "cfg", fun _ => [0], fun _ => .ok 200, fun _ _ => .ok ⟨200, "OK", 5⟩⟩

/-- A dispatch environment whose POST fails at the transport level. -/
def envPostFail : DispatchEnv Nat Nat :=
  ⟨fun _ => "cfg", fun _ => [0], fun _ => .ok 200, fun _ _ => .error "ECONNRESET"⟩

/-- A dispatch environment whose POST is answered with HTTP 500. -/
def envReject : DispatchEnv Nat Nat :=
  ⟨fun _ => "cfg", fun _ => [0], fun _ => .ok 200,
   fun _ _ => .ok ⟨500, "Internal Server Error", 5⟩⟩

/-- A successful environment for `detectFaces` (`Nat` scores, `String` faces). -/
def envFaces : DispatchEnv (FacialRecognitionRequest Nat) (FacialRecognitionResponse String) :=
  ⟨fun _ => "cfg", fun _ => [0], fun _ => .ok 200, fun _ _ => .ok ⟨200, "OK", ⟨100, 200, ["f1"]⟩⟩⟩

/-- A successful environment for `encodeImage` (`List Nat` embeddings). -/
def envVisual : DispatchEnv SearchVisualRequest (ClipVisualResponse (List Nat)) :=
  ⟨fun _ => "cfg", fun _ => [0], fun _ => .ok 200, fun _ _ => .ok ⟨200, "OK", ⟨[1, 2]⟩⟩⟩

/-- A successful environment for `encodeText` (`List Nat` embeddings). -/
def envTextual : DispatchEnv SearchTextualRequest (ClipTextualResponse (List Nat)) :=
  ⟨fun _ => "cfg", fun _ => [0], fun _ => .ok 200, fun _ _ => .ok ⟨200, "OK", ⟨[1, 2]⟩⟩⟩

/-! ## Helper lemmas -/

theorem scanServers_cons_error (g : String → Except String Nat) (p cause : String)
    (rest : List String) (h : g p = .error cause) :
    scanServers g (p :: rest) =
      (Effect.probe p :: Effect.warn (pingFailMsg p cause) :: (scanServers g rest).1,
       (scanServers g rest).2) := by
  simp [scanServers, h]

theorem scanServers_cons_ok200 (g : String → Except String Nat) (p : String)
    (rest : List String) (h : g p = .ok 200) :
    scanServers g (p :: rest) = ([Effect.probe p, Effect.debug (respMsg p)], some p) := by
  simp [scanServers, h]

theorem scanServers_cons_okne (g : String → Except String Nat) (p : String) (s : Nat)
    (rest : List String) (h : g p = .ok s) (hs : s ≠ 200) :
    scanServers g (p :: rest) =
      (Effect.probe p :: (scanServers g rest).1, (scanServers g rest).2) := by
  simp [scanServers, h, hs]

theorem probesOf_nil : probesOf [] = [] := rfl

theorem probesOf_probe_cons (p : String) (evs : List Effect) :
    probesOf (Effect.probe p :: evs) = p :: probesOf evs := rfl

theorem probesOf_warn_cons (m : String) (evs : List Effect) :
    probesOf (Effect.warn m :: evs) = probesOf evs := rfl

theorem probesOf_debug_cons (m : String) (evs : List Effect) :
    probesOf (Effect.debug m :: evs) = probesOf evs := rfl

/-- If candidate `i` is the first with probe status `200`, the scan returns it
and probes exactly the candidates up to and including position `i`. -/
theorem scanServers_first (g : String → Except String Nat) (l : List String) :
    ∀ (i : Nat), i < l.length →
      probeResult g (l.getD i "") = 200 →
      (∀ j, j < i → probeResult g (l.getD j "") ≠ 200) →
      (scanServers g l).2 = some (l.getD i "") ∧
      probesOf (scanServers g l).1 = l.take (i + 1) := by
  induction l with
  | nil => intro i hi; exact absurd hi (Nat.not_lt_zero i)
  | cons p rest ih =>
    intro i hi h200 hfirst
    match i with
    | 0 =>
      simp only [List.getD_cons_zero] at h200 ⊢
      cases hg : g p with
      | error cause => simp [probeResult, hg] at h200
      | ok s =>
        have hs : s = 200 := by rw [probeResult, hg] at h200; exact h200
        subst hs
        rw [scanServers_cons_ok200 g p rest hg]
        exact ⟨rfl, by simp [probesOf_probe_cons, probesOf_debug_cons, probesOf_nil]⟩
    | (k+1) =>
      have hp : probeResult g p ≠ 200 := by
        have := hfirst 0 (Nat.succ_pos k)
        simpa using this
      have hi' : k < rest.length := Nat.lt_of_succ_lt_succ hi
      have h200' : probeResult g (rest.getD k "") = 200 := by simpa using h200
      have hfirst' : ∀ j, j < k → probeResult g (rest.getD j "") ≠ 200 := by
        intro j hj
        have := hfirst (j+1) (Nat.succ_lt_succ hj)
        simpa using this
      obtain ⟨ht2, ht1⟩ := ih k hi' h200' hfirst'
      simp only [List.getD_cons_succ, List.take_succ_cons]
      cases hg : g p with
      | error cause =>
        rw [scanServers_cons_error g p cause rest hg]
        exact ⟨ht2, by rw [probesOf_probe_cons, probesOf_warn_cons, ht1]⟩
      | ok s =>
        have hs : s ≠ 200 := by rw [probeResult, hg] at hp; exact hp
        rw [scanServers_cons_okne g p s rest hg hs]
        exact ⟨ht2, by rw [probesOf_probe_cons, ht1]⟩

/-- If no candidate's probe status is `200`, the scan finds nothing. -/
theorem scanServers_all_fail (g : String → Except String Nat) (l : List String)
    (h : ∀ c ∈ l, probeResult g c ≠ 200) :
    (scanServers g l).2 = none := by
  induction l with
  | nil => rfl
  | cons p rest ih =>
    have hp : probeResult g p ≠ 200 := h p (List.mem_cons_self p rest)
    have ih' := ih fun c hc => h c (List.mem_cons_of_mem p hc)
    cases hg : g p with
    | error cause => rw [scanServers_cons_error g p cause rest hg]; exact ih'
    | ok s =>
      have hs : s ≠ 200 := by rw [probeResult, hg] at hp; exact hp
      rw [scanServers_cons_okne g p s rest hg hs]; exact ih'

theorem find_working_server_fst (g : String → Except String Nat) (url : String) :
    (find_working_server g url).1 = (scanServers g (splitCandidates url)).1 := by
  cases hx : (scanServers g (splitCandidates url)).2 <;> simp [find_working_server, hx]

/-- Lemma input: `splitSemiAux` always yields at least one segment. -/
theorem splitSemiAux_ne_nil : ∀ (cs acc : List Char), splitSemiAux cs acc ≠ [] := by
  intro cs
  induction cs with
  | nil => intro acc; simp [splitSemiAux]
  | cons c cs ih =>
    intro acc
    by_cases hc : c = ';'
    · simp [splitSemiAux, hc]
    · simpa [splitSemiAux, hc] using ih (c :: acc)

theorem splitCandidates_ne_nil (url : String) : splitCandidates url ≠ [] := by
  have h := splitSemiAux_ne_nil url.data []
  simp only [splitCandidates, splitSemi]
  intro hmap
  exact h (List.map_eq_nil_iff.mp hmap)

/-- A scan over a non-empty candidate list always probes its head first. -/
theorem scanServers_probes_head (g : String → Except String Nat) (p : String)
    (rest : List String) :
    ∃ ps, probesOf (scanServers g (p :: rest)).1 = p :: ps := by
  cases hg : g p with
  | error cause =>
    rw [scanServers_cons_error g p cause rest hg]
    exact ⟨probesOf (scanServers g rest).1, by rw [probesOf_probe_cons, probesOf_warn_cons]⟩
  | ok s =>
    by_cases hs : s = 200
    · subst hs
      rw [scanServers_cons_ok200 g p rest hg]
      exact ⟨[], rfl⟩
    · rw [scanServers_cons_okne g p s rest hg hs]
      exact ⟨probesOf (scanServers g rest).1, by rw [probesOf_probe_cons]⟩

theorem probesOf_append (a b : List Effect) :
    probesOf (a ++ b) = probesOf a ++ probesOf b := by
  simp [probesOf]

theorem probesOf_post_cons (b p : String) (fd : FormData) (evs : List Effect) :
    probesOf (Effect.post b p fd :: evs) = probesOf evs := rfl

theorem postsOf_nil : postsOf [] = [] := rfl

theorem postsOf_probe_cons (p : String) (evs : List Effect) :
    postsOf (Effect.probe p :: evs) = postsOf evs := rfl

theorem postsOf_warn_cons (m : String) (evs : List Effect) :
    postsOf (Effect.warn m :: evs) = postsOf evs := rfl

theorem postsOf_debug_cons (m : String) (evs : List Effect) :
    postsOf (Effect.debug m :: evs) = postsOf evs := rfl

theorem postsOf_post_cons (b p : String) (fd : FormData) (evs : List Effect) :
    postsOf (Effect.post b p fd :: evs) = (b, p, fd) :: postsOf evs := rfl

theorem postsOf_append (a b : List Effect) :
    postsOf (a ++ b) = postsOf a ++ postsOf b := by
  simp [postsOf]

/-- The resolver trace contains GET probes and log lines only — no POSTs. -/
theorem scanServers_no_posts (g : String → Except String Nat) :
    ∀ l : List String, postsOf (scanServers g l).1 = [] := by
  intro l
  induction l with
  | nil => rfl
  | cons p rest ih =>
    cases hg : g p with
    | error cause =>
      rw [scanServers_cons_error g p cause rest hg]
      rw [postsOf_probe_cons, postsOf_warn_cons]
      exact ih
    | ok s =>
      by_cases hs : s = 200
      · subst hs
        rw [scanServers_cons_ok200 g p rest hg]
        rfl
      · rw [scanServers_cons_okne g p s rest hg hs]
        rw [postsOf_probe_cons]
        exact ih

theorem find_working_server_no_posts (g : String → Except String Nat) (url : String) :
    postsOf (find_working_server g url).1 = [] := by
  rw [find_working_server_fst]
  exact scanServers_no_posts g (splitCandidates url)

/-- Unfolding of `predict` once the form data is built and resolution found a
working server: the effect trace is the debug line, the resolver's effects,
and one POST of the form to `/predict` on the working server; the result is
decided by that POST's outcome alone. -/
theorem predict_resolved {κ β : Type} (env : DispatchEnv κ β) (url : String)
    (payload : ModelPayload) (config : κ) (fd : FormData) (w : String)
    (hform : getFormData env payload config = .ok fd)
    (hres : (find_working_server env.fetchGet url).2 = .ok w) :
    predict env url payload config =
      ((match env.fetchPost w fd with
        | .error cause => .error (.dispatchFailed (dispatchFailMsg w cause))
        | .ok res =>
          if 400 ≤ res.status then
            .error (.predictionRejected
              (rejectFailMsg (env.stringify config) res.status res.statusText))
          else .ok res.body),
       Effect.debug ("Predicting with " ++ String.intercalate "," (splitSemi url))
         :: ((find_working_server env.fetchGet url).1
              ++ [Effect.post w "/predict" fd])) := by
  simp only [predict, hform, hres]
  cases hpost : env.fetchPost w fd with
  | error cause => simp [hpost]
  | ok res => by_cases hst : 400 ≤ res.status <;> simp [hpost, hst]

/-! ## Claims -/

/-- C1: for every configuration string, the resolver derives the candidate
list by splitting on `';'` and trimming each segment (`splitCandidates`),
probes candidates strictly in list order, and when candidate `i` is the
first whose liveness probe returns HTTP status exactly `200`, it returns
that candidate and probes exactly the candidates up to and including it —
no candidate after it — regardless of the status of later candidates. -/
theorem resolver_returns_first_live (g : String → Except String Nat) (url : String)
    (i : Nat) (hi : i < (splitCandidates url).length)
    (h200 : probeResult g ((splitCandidates url).getD i "") = 200)
    (hfirst : ∀ j, j < i → probeResult g ((splitCandidates url).getD j "") ≠ 200) :
    (find_working_server g url).2 = .ok ((splitCandidates url).getD i "") ∧
    probesOf (find_working_server g url).1 = (splitCandidates url).take (i + 1) := by
  obtain ⟨h2, h1⟩ := scanServers_first g (splitCandidates url) i hi h200 hfirst
  constructor
  · simp only [find_working_server]
    rw [h2]
  · rw [find_working_server_fst]
    exact h1

/-- Witness for C1: with candidates `"a;b"` where `"a"` answers 500 and
`"b"` answers 200, the resolver returns `"b"` after probing both. -/
theorem resolver_returns_first_live_witness :
    (find_working_server wgOnlyB "a;b").2 = .ok ((splitCandidates "a;b").getD 1 "") ∧
    probesOf (find_working_server wgOnlyB "a;b").1 = (splitCandidates "a;b").take 2 :=
  resolver_returns_first_live wgOnlyB "a;b" 1 (by decide) (by decide) (by decide)

/-- C2 (counterexample): when every probe fails, the resolver does error, but
the error message is the fixed string `noServerMsg`, which does not contain
the original address string `"z"` — the claim that the error carries the
original semicolon-delimited address string is false. -/
theorem noServer_error_lacks_address :
    (find_working_server wgFail "z").2 = .error (.noAvailableServer noServerMsg) ∧
    strOccurs noServerMsg "z" = false := by
  constructor
  · rfl
  · decide

/-- C2 (amended): for every candidate list in which every candidate's probe
fails at the network level or returns a non-200 status, the resolver fails
with the no-server error, whose message is the fixed string
`"Machine learning request: no machine learning server found."` — it does
not carry the original delimited address string. -/
theorem resolver_all_fail_fixed_error (g : String → Except String Nat) (url : String)
    (h : ∀ c ∈ splitCandidates url, probeResult g c ≠ 200) :
    (find_working_server g url).2 =
      .error (.noAvailableServer "Machine learning request: no machine learning server found.") := by
  have h2 := scanServers_all_fail g (splitCandidates url) h
  simp only [find_working_server]
  rw [h2]
  rfl

/-- Witness for the amended C2: every probe of `"a;b"` fails at the transport
level, and the resolver errors with the fixed message. -/
theorem resolver_all_fail_fixed_error_witness :
    (find_working_server wgFail "a;b").2 =
      .error (.noAvailableServer "Machine learning request: no machine learning server found.") :=
  resolver_all_fail_fixed_error wgFail "a;b" (by decide)

/-- C7: a candidate whose liveness probe fails at the network level does not
abort the scan — the failure is caught, a warning is logged, the status is
replaced by the synthetic `0`, which differs from every real HTTP status
(all of which are `≥ 100`, so a failed probe can never count as live), and
the scan proceeds with the remaining candidates. -/
theorem probe_failure_isolated (g : String → Except String Nat) (p cause : String)
    (rest : List String) (h : g p = .error cause) :
    probeResult g p = 0 ∧
    (∀ s : Nat, 100 ≤ s → probeResult g p ≠ s) ∧
    scanServers g (p :: rest) =
      (Effect.probe p :: Effect.warn (pingFailMsg p cause) :: (scanServers g rest).1,
       (scanServers g rest).2) := by
  have h0 : probeResult g p = 0 := by simp [probeResult, h]
  refine ⟨h0, ?_, scanServers_cons_error g p cause rest h⟩
  intro s hs
  rw [h0]
  omega

/-- Witness for C7: with a probe that times out on `"a"`, the synthetic
status is `0`, is not `200`, and the scan continues with `"b"`. -/
theorem probe_failure_isolated_witness :
    probeResult wgFail "a" = 0 ∧
    probeResult wgFail "a" ≠ 200 ∧
    scanServers wgFail ["a", "b"] =
      (Effect.probe "a" :: Effect.warn (pingFailMsg "a" "connection refused")
         :: (scanServers wgFail ["b"]).1,
       (scanServers wgFail ["b"]).2) :=
  ⟨(probe_failure_isolated wgFail "a" "connection refused" ["b"] rfl).1,
   (probe_failure_isolated wgFail "a" "connection refused" ["b"] rfl).2.1 200 (by decide),
   (probe_failure_isolated wgFail "a" "connection refused" ["b"] rfl).2.2⟩

/-- C10: splitting any input string (the empty string included) on `';'`
yields at least one segment, so the candidate list is never empty and the
resolver always issues at least one liveness probe before it can fail with
the no-server error. -/
theorem candidate_list_never_empty (g : String → Except String Nat) (url : String) :
    splitCandidates url ≠ [] ∧ probesOf (find_working_server g url).1 ≠ [] := by
  refine ⟨splitCandidates_ne_nil url, ?_⟩
  rw [find_working_server_fst]
  obtain ⟨p, rest, hcons⟩ := List.exists_cons_of_ne_nil (splitCandidates_ne_nil url)
  rw [hcons]
  obtain ⟨ps, hps⟩ := scanServers_probes_head g p rest
  rw [hps]
  exact List.cons_ne_nil p ps

/-- C3: for every payload that contains neither an image reference nor a
text string, `predict` fails with the `Invalid input` error and its effect
trace is empty — no liveness probe and no prediction POST is issued. -/
theorem invalid_payload_rejected_before_network {κ β : Type} (env : DispatchEnv κ β)
    (url : String) (payload : ModelPayload) (config : κ)
    (h1 : payload.imagePath = none) (h2 : payload.text = none) :
    predict env url payload config = (.error (.invalidInput "Invalid input"), []) := by
  have hform : getFormData env payload config = .error (.invalidInput "Invalid input") := by
    simp [getFormData, h1, h2]
  simp [predict, hform]

/-- Witness for C3: the empty payload makes `predict` fail with no effects. -/
theorem invalid_payload_rejected_before_network_witness :
    predict envOk "u" ⟨none, none⟩ 0 = (.error (.invalidInput "Invalid input"), []) :=
  invalid_payload_rejected_before_network envOk "u" ⟨none, none⟩ 0 rfl rfl

/-- C4: when resolution succeeds with working address `w` but the POST to it
fails at the transport level, `predict` fails with the dispatch error whose
message names the resolved address `w` and the underlying cause (not the
original candidate list); exactly one POST is issued and no further probe
happens after it — the failure is neither retried nor re-resolved. -/
theorem transport_failure_dispatch_error {κ β : Type} (env : DispatchEnv κ β)
    (url : String) (payload : ModelPayload) (config : κ) (fd : FormData)
    (w cause : String)
    (hform : getFormData env payload config = .ok fd)
    (hres : (find_working_server env.fetchGet url).2 = .ok w)
    (hpost : env.fetchPost w fd = .error cause) :
    (predict env url payload config).1 =
      .error (.dispatchFailed
        ("Machine learning request to \"" ++ w ++ "\" failed with " ++ cause)) ∧
    postsOf (predict env url payload config).2 = [(w, "/predict", fd)] ∧
    probesOf (predict env url payload config).2 =
      probesOf (find_working_server env.fetchGet url).1 := by
  rw [predict_resolved env url payload config fd w hform hres]
  refine ⟨by simp [hpost, dispatchFailMsg], ?_, ?_⟩
  · simp [postsOf_debug_cons, postsOf_append, find_working_server_no_posts,
      postsOf_post_cons, postsOf_nil]
  · simp [probesOf_debug_cons, probesOf_append, probesOf_post_cons, probesOf_nil]

/-- Witness for C4: with a resolved server `"u"` and a POST that fails with
`ECONNRESET`, `predict` errors with the dispatch message naming `"u"`. -/
theorem transport_failure_dispatch_error_witness :
    (predict envPostFail "u" ⟨none, some "t"⟩ 0).1 =
      .error (.dispatchFailed
        ("Machine learning request to \"" ++ "u" ++ "\" failed with " ++ "ECONNRESET")) ∧
    postsOf (predict envPostFail "u" ⟨none, some "t"⟩ 0).2 =
      [("u", "/predict", [FormField.entries "cfg", FormField.text "t"])] ∧
    probesOf (predict envPostFail "u" ⟨none, some "t"⟩ 0).2 =
      probesOf (find_working_server envPostFail.fetchGet "u").1 :=
  transport_failure_dispatch_error envPostFail "u" ⟨none, some "t"⟩ 0
    [FormField.entries "cfg", FormField.text "t"] "u" "ECONNRESET" rfl rfl rfl

/-- C5: once the POST is answered, a status `≥ 400` makes `predict` fail with
the rejection error carrying the serialized request configuration, the exact
numeric status and the status text, while a status `< 400` returns the
decoded body as-is. -/
theorem response_status_dispatch {κ β : Type} (env : DispatchEnv κ β)
    (url : String) (payload : ModelPayload) (config : κ) (fd : FormData)
    (w : String) (res : PostResponse β)
    (hform : getFormData env payload config = .ok fd)
    (hres : (find_working_server env.fetchGet url).2 = .ok w)
    (hpost : env.fetchPost w fd = .ok res) :
    (400 ≤ res.status →
      (predict env url payload config).1 =
        .error (.predictionRejected
          ("Machine learning request '" ++ env.stringify config ++ "' failed with status "
            ++ toString res.status ++ ": " ++ res.statusText))) ∧
    (res.status < 400 → (predict env url payload config).1 = .ok res.body) := by
  rw [predict_resolved env url payload config fd w hform hres]
  constructor
  · intro h
    simp [hpost, if_pos h, rejectFailMsg]
  · intro h
    simp [hpost, if_neg (by omega : ¬ 400 ≤ res.status)]

/-- Witness for C5: a 500 response yields the rejection error with the
serialized config, the status `500` and the status text. -/
theorem response_status_dispatch_witness :
    (predict envReject "u" ⟨none, some "t"⟩ 0).1 =
      .error (.predictionRejected
        ("Machine learning request '" ++ "cfg" ++ "' failed with status "
          ++ toString (500 : Nat) ++ ": " ++ "Internal Server Error")) :=
  (response_status_dispatch envReject "u" ⟨none, some "t"⟩ 0
    [FormField.entries "cfg", FormField.text "t"] "u"
    ⟨500, "Internal Server Error", 5⟩ rfl rfl rfl).1 (by decide)

/-- C6: whenever form building and resolution succeed, `predict` issues
exactly one POST, of the multipart body, targeted at the fixed `/predict`
path relative to the resolved address. -/
theorem predict_single_post_target {κ β : Type} (env : DispatchEnv κ β)
    (url : String) (payload : ModelPayload) (config : κ) (fd : FormData) (w : String)
    (hform : getFormData env payload config = .ok fd)
    (hres : (find_working_server env.fetchGet url).2 = .ok w) :
    postsOf (predict env url payload config).2 = [(w, "/predict", fd)] := by
  rw [predict_resolved env url payload config fd w hform hres]
  simp [postsOf_debug_cons, postsOf_append, find_working_server_no_posts,
    postsOf_post_cons, postsOf_nil]

/-- Witness for C6: with resolved address `"u"`, the one POST of the call
goes to `/predict` relative to `"u"` and carries the multipart body. -/
theorem predict_single_post_target_witness :
    postsOf (predict envOk "u" ⟨none, some "t"⟩ 0).2 =
      [("u", "/predict", [FormField.entries "cfg", FormField.text "t"])] :=
  predict_single_post_target envOk "u" ⟨none, some "t"⟩ 0
    [FormField.entries "cfg", FormField.text "t"] "u" rfl rfl

/-- C8: for every successful dispatch, each public operation projects the
decoded response per its specialization: `detectFaces` copies `imageHeight`
and `imageWidth` and binds `faces` to the facial-recognition branch;
`encodeImage` and `encodeText` return the search branch unchanged. -/
theorem operations_project_response :
    (∀ (σ α : Type)
       (env : DispatchEnv (FacialRecognitionRequest σ) (FacialRecognitionResponse α))
       (url imagePath modelName : String) (minScore : σ)
       (resp : FacialRecognitionResponse α) (evs : List Effect),
       predict env url ⟨some imagePath, none⟩ ⟨⟨modelName, minScore⟩, ⟨modelName⟩⟩
           = (.ok resp, evs) →
       detectFaces env url imagePath modelName minScore =
         (.ok ⟨resp.imageHeight, resp.imageWidth, resp.facial_recognition⟩, evs)) ∧
    (∀ (γ : Type) (env : DispatchEnv SearchVisualRequest (ClipVisualResponse γ))
       (url imagePath modelName : String)
       (resp : ClipVisualResponse γ) (evs : List Effect),
       predict env url ⟨some imagePath, none⟩ ⟨modelName⟩ = (.ok resp, evs) →
       encodeImage env url imagePath modelName = (.ok resp.search, evs)) ∧
    (∀ (γ : Type) (env : DispatchEnv SearchTextualRequest (ClipTextualResponse γ))
       (url text modelName : String)
       (resp : ClipTextualResponse γ) (evs : List Effect),
       predict env url ⟨none, some text⟩ ⟨modelName⟩ = (.ok resp, evs) →
       encodeText env url text modelName = (.ok resp.search, evs)) := by
  refine ⟨?_, ?_, ?_⟩
  · intro σ α env url imagePath modelName minScore resp evs h
    simp [detectFaces, h, Except.map]
  · intro γ env url imagePath modelName resp evs h
    simp [encodeImage, h, Except.map]
  · intro γ env url text modelName resp evs h
    simp [encodeText, h, Except.map]

/-- Witness for C8: concrete successful runs of the three operations,
projected as the claim states. -/
theorem operations_project_response_witness :
    detectFaces envFaces "u" "i" "m" (7 : Nat) =
      (.ok ⟨100, 200, ["f1"]⟩,
       (predict envFaces "u" ⟨some "i", none⟩ ⟨⟨"m", 7⟩, ⟨"m"⟩⟩).2) ∧
    encodeImage envVisual "u" "i" "m" =
      (.ok [1, 2], (predict envVisual "u" ⟨some "i", none⟩ ⟨"m"⟩).2) ∧
    encodeText envTextual "u" "t" "m" =
      (.ok [1, 2], (predict envTextual "u" ⟨none, some "t"⟩ ⟨"m"⟩).2) :=
  ⟨operations_project_response.1 Nat String envFaces "u" "i" "m" 7
    ⟨100, 200, ["f1"]⟩ (predict envFaces "u" ⟨some "i", none⟩ ⟨⟨"m", 7⟩, ⟨"m"⟩⟩).2 rfl,
   operations_project_response.2.1 (List Nat) envVisual "u" "i" "m"
    ⟨[1, 2]⟩ (predict envVisual "u" ⟨some "i", none⟩ ⟨"m"⟩).2 rfl,
   operations_project_response.2.2 (List Nat) envTextual "u" "t" "m"
    ⟨[1, 2]⟩ (predict envTextual "u" ⟨none, some "t"⟩ ⟨"m"⟩).2 rfl⟩

/-- C9 (counterexample): a payload carrying BOTH variants (`imagePath` and
`text` present) is not rejected — `getFormData` builds an image request, the
image variant taking precedence; the claim that a payload without exactly
one variant is always rejected before a request is built is false. -/
theorem both_variants_not_rejected :
    getFormData envOk ⟨some "i", some "t"⟩ 0 =
      .ok [FormField.entries "cfg", FormField.image [0]] := rfl

/-- C9 (amended): the payload's variant is decided by key presence, image
first: with neither variant the request is invalid and rejected before a
request is built; with `imagePath` present (even if `text` is also present)
an image request is built; with only `text` present a text request is
built. -/
theorem payload_variant_handling {κ β : Type} (env : DispatchEnv κ β)
    (payload : ModelPayload) (config : κ) :
    (payload.imagePath = none → payload.text = none →
      getFormData env payload config = .error (.invalidInput "Invalid input")) ∧
    (∀ p, payload.imagePath = some p →
      getFormData env payload config =
        .ok [FormField.entries (env.stringify config), FormField.image (env.readFile p)]) ∧
    (∀ t, payload.imagePath = none → payload.text = some t →
      getFormData env payload config =
        .ok [FormField.entries (env.stringify config), FormField.text t]) := by
  refine ⟨?_, ?_, ?_⟩
  · intro h1 h2
    simp [getFormData, h1, h2]
  · intro p hp
    simp [getFormData, hp]
  · intro t h1 ht
    simp [getFormData, h1, ht]

/-- Witness for the amended C9: the three payload shapes at concrete
values. -/
theorem payload_variant_handling_witness :
    getFormData envOk ⟨none, none⟩ 0 = .error (.invalidInput "Invalid input") ∧
    getFormData envOk ⟨some "i", none⟩ 0 =
      .ok [FormField.entries "cfg", FormField.image [0]] ∧
    getFormData envOk ⟨none, some "t"⟩ 0 =
      .ok [FormField.entries "cfg", FormField.text "t"] :=
  ⟨(payload_variant_handling envOk ⟨none, none⟩ 0).1 rfl rfl,
   (payload_variant_handling envOk ⟨some "i", none⟩ 0).2.1 "i" rfl,
   (payload_variant_handling envOk ⟨none, some "t"⟩ 0).2.2 "t" rfl rfl⟩

end MLRepo
